/-
Verification of the ibkr-wheel-strategy scoring and signal engine.

Shallow embedding of the Python source (apps/ibkr): nullable Decimal/float
fields become `Option ℚ`, Python truthiness (`if x:` is false for `None`
and `0`) becomes `qtruthy`, `int(...)` truncation becomes `pyInt`.
Rational division is total in Lean (`x / 0 = 0`); the Python code never
divides by zero on the inputs the claims are about, and this convention is
noted where it matters.
-/
import Mathlib

/-- Python truthiness for a nullable numeric field: `None` and `0` are falsy. -/
def qtruthy : Option ℚ → Bool
  | none => false
  | some x => x != 0

/-- Python `int(...)` applied to a rational: truncation toward zero
(`Int.div` of numerator by denominator truncates toward zero, as Python does). -/
def pyInt (q : ℚ) : Int := q.num / (q.den : Int)

/-- StockIndicator model (apps/ibkr/models.py): per-stock technical snapshot.
Nullable Decimal columns are `Option ℚ`; enum CharFields are `String`
(blank = `""`). -/
structure StockIndicator where
  rsi : Option ℚ
  rsi_signal : String
  ema_trend : String
  bb_position : String
  support_level_1 : Option ℚ
  support_level_2 : Option ℚ
  support_level_3 : Option ℚ
  resistance_level_1 : Option ℚ
  resistance_level_2 : Option ℚ
  resistance_level_3 : Option ℚ
  deriving Repr, DecidableEq

/-- Stock model (apps/ibkr/models.py) together with the derived per-stock
options aggregates that the scoring code computes from `stock.options`:
`has_options` is `stock.options.exists()`, `avg_put_iv` is the Avg of PUT
implied volatilities (None when no rows), `avg_put_oi` the Avg of PUT open
interest over rows with open_interest > 0.  `indicators` is the one-to-one
StockIndicator (`none` models DoesNotExist / hasattr failure). -/
structure Stock where
  last_price : Option ℚ
  market_cap : Option ℚ
  beta : Option ℚ
  roe : Option ℚ
  dividend_yield : Option ℚ
  avg_volume : Option ℚ
  fifty_two_week_high : Option ℚ
  fifty_two_week_low : Option ℚ
  has_options : Bool
  avg_put_iv : Option ℚ
  avg_put_oi : Option ℚ
  indicators : Option StockIndicator
  deriving Repr, DecidableEq

/-- StockIndicator.near_support property (models.py): price within 3% of any
of the three support levels.  Takes the owning stock's `last_price` since the
property reads `self.stock.last_price`. -/
def StockIndicator.near_support (ind : StockIndicator) (last_price : Option ℚ) : Bool :=
  if !qtruthy last_price then false
  else
    let price := last_price.getD 0
    [ind.support_level_1, ind.support_level_2, ind.support_level_3].any fun s =>
      qtruthy s && |price - s.getD 0| / s.getD 0 ≤ 3 / 100

/-- StockIndicator.near_resistance property (models.py): price within 3% of any
of the three resistance levels. -/
def StockIndicator.near_resistance (ind : StockIndicator) (last_price : Option ℚ) : Bool :=
  if !qtruthy last_price then false
  else
    let price := last_price.getD 0
    [ind.resistance_level_1, ind.resistance_level_2, ind.resistance_level_3].any fun r =>
      qtruthy r && |price - r.getD 0| / r.getD 0 ≤ 3 / 100

/-- Result dict of calculate_wheel_score (views.py). -/
structure WheelScores where
  volatility_score : Nat
  liquidity_score : Nat
  technical_score : Nat
  stability_score : Nat
  price_score : Nat
  total_score : Nat
  grade : String
  deriving Repr, DecidableEq

/-- Volatility block of calculate_wheel_score (views.py lines 284-302):
tiers over average PUT implied volatility in percent. -/
def wheelVolatilityScore (stock : Stock) : Nat :=
  if stock.has_options && qtruthy stock.avg_put_iv then
    let iv_pct := stock.avg_put_iv.getD 0 * 100
    if iv_pct > 50 then 25
    else if iv_pct > 35 then 20
    else if iv_pct > 25 then 15
    else if iv_pct > 15 then 10
    else 5
  else 0

/-- Liquidity block of calculate_wheel_score (views.py lines 304-337):
volume tiers plus PUT open-interest tiers, capped at 20. -/
def wheelLiquidityScore (stock : Stock) : Nat :=
  let volPts : Nat :=
    if qtruthy stock.avg_volume then
      let v := stock.avg_volume.getD 0
      if v > 10000000 then 10
      else if v > 5000000 then 8
      else if v > 1000000 then 6
      else if v > 500000 then 4
      else 2
    else 0
  let oiPts : Nat :=
    if stock.has_options && qtruthy stock.avg_put_oi then
      let oi := stock.avg_put_oi.getD 0
      if oi > 1000 then 10
      else if oi > 500 then 8
      else if oi > 100 then 6
      else if oi > 50 then 4
      else 2
    else 0
  min (volPts + oiPts) 20

/-- Technical block of calculate_wheel_score (views.py lines 339-365):
RSI tiers plus EMA-trend points, capped at 25. -/
def wheelTechnicalScore (stock : Stock) : Nat :=
  let pts : Nat :=
    match stock.indicators with
    | none => 0
    | some ind =>
      let rsiPts : Nat :=
        if qtruthy ind.rsi then
          let r := ind.rsi.getD 0
          if r < 35 then 15
          else if r < 50 then 12
          else if r < 65 then 8
          else if r < 75 then 4
          else 1
        else 0
      let trendPts : Nat :=
        if ind.ema_trend == "BULLISH" then 10
        else if ind.ema_trend == "NEUTRAL" then 5
        else 0
      rsiPts + trendPts
  min pts 25

/-- Stability block of calculate_wheel_score (views.py lines 367-399):
market-cap, beta and dividend-yield tiers, capped at 20. -/
def wheelStabilityScore (stock : Stock) : Nat :=
  let mcapPts : Nat :=
    if qtruthy stock.market_cap then
      let m := stock.market_cap.getD 0
      if m > 100000000000 then 8
      else if m > 10000000000 then 6
      else if m > 2000000000 then 4
      else 2
    else 0
  let betaPts : Nat :=
    if qtruthy stock.beta then
      let b := stock.beta.getD 0
      if b < 8/10 then 6
      else if b < 12/10 then 4
      else 2
    else 0
  let divPts : Nat :=
    if qtruthy stock.dividend_yield && stock.dividend_yield.getD 0 > 0 then
      let d := stock.dividend_yield.getD 0
      if d > 3/100 then 6
      else if d > 1/100 then 4
      else 2
    else 0
  min (mcapPts + betaPts + divPts) 20

/-- Price block of calculate_wheel_score (views.py lines 401-413). -/
def wheelPriceScore (stock : Stock) : Nat :=
  if qtruthy stock.last_price then
    let p := stock.last_price.getD 0
    if 10 ≤ p ∧ p ≤ 50 then 10
    else if (5 ≤ p ∧ p < 10) ∨ (50 < p ∧ p ≤ 100) then 7
    else if 100 < p ∧ p ≤ 200 then 5
    else if p < 5 then 3
    else 2
  else 0

/-- calculate_wheel_score (views.py lines 262-438): five tiered sub-scores,
integer total, letter grade at 80/65/50. -/
def calculate_wheel_score (stock : Stock) : WheelScores :=
  let vol := wheelVolatilityScore stock
  let liq := wheelLiquidityScore stock
  let tech := wheelTechnicalScore stock
  let stab := wheelStabilityScore stock
  let price := wheelPriceScore stock
  let total := vol + liq + tech + stab + price
  { volatility_score := vol
    liquidity_score := liq
    technical_score := tech
    stability_score := stab
    price_score := price
    total_score := total
    grade :=
      if total ≥ 80 then "A"
      else if total ≥ 65 then "B"
      else if total ≥ 50 then "C"
      else "D" }

/-- Indicator snapshot of the end-to-end wheel-score scenario: RSI 32,
bullish EMA trend, no detected support/resistance levels. -/
def c1Ind : StockIndicator :=
  { rsi := some 32
    rsi_signal := "NEUTRAL"
    ema_trend := "BULLISH"
    bb_position := ""
    support_level_1 := none
    support_level_2 := none
    support_level_3 := none
    resistance_level_1 := none
    resistance_level_2 := none
    resistance_level_3 := none }

/-- Stock of the end-to-end wheel-score scenario: price 45, avg volume 2M,
market cap 50e9, beta 1.0, dividend yield 2%, average PUT IV 30%, average
PUT open interest 600. -/
def c1Stock : Stock :=
  { last_price := some 45
    market_cap := some 50000000000
    beta := some 1
    roe := none
    dividend_yield := some (2/100)
    avg_volume := some 2000000
    fifty_two_week_high := none
    fifty_two_week_low := none
    has_options := true
    avg_put_iv := some (3/10)
    avg_put_oi := some 600
    indicators := some c1Ind }

/-- Result dict of calculate_entry_signal (views.py). -/
structure EntrySignalData where
  signal : String
  quality : String
  score : Int
  reasons : List String
  signal_color : String
  deriving Repr, DecidableEq

/-- RSI part of the technical block of calculate_entry_signal
(views.py lines 480-496).  Reason strings are abbreviated plain text. -/
def entryRsiBlock (ind : StockIndicator) : Nat × List String :=
  if qtruthy ind.rsi then
    let r := ind.rsi.getD 0
    if r < 35 then (20, ["RSI oversold - prime time for CSPs"])
    else if 35 ≤ r ∧ r < 50 then (15, ["RSI favorable - good CSP entry"])
    else if 50 ≤ r ∧ r < 65 then (8, ["RSI neutral - wait for dip"])
    else if 65 ≤ r ∧ r < 75 then (3, ["RSI elevated - not ideal"])
    else (0, ["RSI overbought - avoid CSPs"])
  else (0, [])

/-- Support-distance part of the technical block of calculate_entry_signal
(views.py lines 498-509). -/
def entrySupportBlock (stock : Stock) (ind : StockIndicator) : Nat × List String :=
  if qtruthy ind.support_level_1 && qtruthy stock.last_price then
    let s := ind.support_level_1.getD 0
    let d := (stock.last_price.getD 0 - s) / s * 100
    if d < 3 then (15, ["Near support"])
    else if d < 8 then (10, ["Close to support"])
    else if d < 15 then (5, ["Moderate distance from support"])
    else (0, [])
  else (0, [])

/-- EMA-trend part of the technical block of calculate_entry_signal
(views.py lines 511-520). -/
def entryTrendBlock (ind : StockIndicator) : Nat × List String :=
  if ind.ema_trend == "BULLISH" then (10, ["Above 50-day EMA - ideal for weekly wheel"])
  else if ind.ema_trend == "NEUTRAL" then (5, ["Neutral trend - acceptable"])
  else (0, ["Below 50-day EMA - not ideal for CSPs"])

/-- IV part of the options-premium block of calculate_entry_signal
(views.py lines 527-547). -/
def entryIvBlock (stock : Stock) : Nat × List String :=
  if stock.has_options && qtruthy stock.avg_put_iv then
    let iv_pct := stock.avg_put_iv.getD 0 * 100
    if iv_pct > 40 then (20, ["High IV - excellent premiums"])
    else if iv_pct > 25 then (15, ["Moderate IV - good premiums"])
    else if iv_pct > 15 then (8, ["Low IV - limited premiums"])
    else (3, ["Very low IV - poor premiums"])
  else (0, [])

/-- Open-interest part of the options-premium block of calculate_entry_signal
(views.py lines 549-564). -/
def entryOiBlock (stock : Stock) : Nat × List String :=
  if stock.has_options && qtruthy stock.avg_put_oi then
    let oi := stock.avg_put_oi.getD 0
    if oi > 500 then (10, ["High liquidity"])
    else if oi > 100 then (7, ["Moderate liquidity"])
    else (3, ["Low liquidity"])
  else (0, [])

/-- 52-week-range part of the market-context block of calculate_entry_signal
(views.py lines 571-587).  When the 52-week high equals the low, Python would
raise ZeroDivisionError; rational division by zero yields 0 here. -/
def entryRangeBlock (stock : Stock) : Nat × List String :=
  if qtruthy stock.fifty_two_week_high && qtruthy stock.fifty_two_week_low &&
      qtruthy stock.last_price then
    let hi := stock.fifty_two_week_high.getD 0
    let lo := stock.fifty_two_week_low.getD 0
    let pos := (stock.last_price.getD 0 - lo) / (hi - lo) * 100
    if pos < 30 then (15, ["Near 52-week low"])
    else if pos < 50 then (10, ["Below mid-range"])
    else if pos < 70 then (5, ["In upper range"])
    else (0, ["Near 52-week high"])
  else (0, [])

/-- Bollinger-position part of the market-context block of
calculate_entry_signal (views.py lines 589-599): the branch is gated on a
non-empty bb_position and only matches the literals BELOW_LOWER, MIDDLE and
ABOVE_UPPER. -/
def entryBbBlock (bb_position : String) : Nat × List String :=
  if bb_position != "" then
    if bb_position == "BELOW_LOWER" then (5, ["Below lower Bollinger Band - oversold"])
    else if bb_position == "MIDDLE" then (3, ["Mid Bollinger Band range"])
    else if bb_position == "ABOVE_UPPER" then (0, ["Above upper Bollinger Band - overbought"])
    else (0, [])
  else (0, [])

/-- Resistance part of the risk-penalty block of calculate_entry_signal
(views.py lines 606-611). -/
def entryResistanceBlock (stock : Stock) (ind : StockIndicator) : Nat × List String :=
  if qtruthy ind.resistance_level_1 && qtruthy stock.last_price then
    let p := stock.last_price.getD 0
    let d := (ind.resistance_level_1.getD 0 - p) / p * 100
    if d < 3 then (5, ["Near resistance - risk of rejection"]) else (0, [])
  else (0, [])

/-- Overbought part of the risk-penalty block of calculate_entry_signal
(views.py lines 613-616). -/
def entryOverboughtBlock (ind : StockIndicator) : Nat × List String :=
  if qtruthy ind.rsi && ind.rsi.getD 0 > 70 then
    (7, ["Overbought RSI above 70 - avoid selling CSPs"])
  else (0, [])

/-- Technical-setup points of calculate_entry_signal before the cap of 40. -/
def entryTechnicalPoints (stock : Stock) (ind : StockIndicator) : Nat :=
  (entryRsiBlock ind).1 + (entrySupportBlock stock ind).1 + (entryTrendBlock ind).1

/-- Options-premium points of calculate_entry_signal before the cap of 30. -/
def entryPremiumPoints (stock : Stock) : Nat :=
  (entryIvBlock stock).1 + (entryOiBlock stock).1

/-- Market-context points of calculate_entry_signal before the cap of 20. -/
def entryContextPoints (stock : Stock) (ind : StockIndicator) : Nat :=
  (entryRangeBlock stock).1 + (entryBbBlock ind.bb_position).1

/-- Risk penalty of calculate_entry_signal (uncapped). -/
def entryRiskPenalty (stock : Stock) (ind : StockIndicator) : Nat :=
  (entryResistanceBlock stock ind).1 + (entryOverboughtBlock ind).1

/-- calculate_entry_signal (views.py lines 441-642): capped category sums,
risk penalty, +10 base offset, then signal/quality labels from thresholds
75/60/45.  Missing indicators short-circuit to NO_DATA. -/
def calculate_entry_signal (stock : Stock) : EntrySignalData :=
  match stock.indicators with
  | none =>
    { signal := "NO_DATA", quality := "N/A", score := 0
      reasons := ["Technical indicators need to be calculated"], signal_color := "gray" }
  | some ind =>
    let score : Int :=
      (min (entryTechnicalPoints stock ind) 40 : Nat)
      + (min (entryPremiumPoints stock) 30 : Nat)
      + (min (entryContextPoints stock ind) 20 : Nat)
    let score := max 0 (score - entryRiskPenalty stock ind) + 10
    let reasons :=
      (entryRsiBlock ind).2 ++ (entrySupportBlock stock ind).2 ++ (entryTrendBlock ind).2
      ++ (entryIvBlock stock).2 ++ (entryOiBlock stock).2
      ++ (entryRangeBlock stock).2 ++ (entryBbBlock ind.bb_position).2
      ++ (entryResistanceBlock stock ind).2 ++ (entryOverboughtBlock ind).2
    if score ≥ 75 then
      { signal := "SELL PUT NOW", quality := "EXCELLENT", score := score
        reasons := reasons, signal_color := "green" }
    else if score ≥ 60 then
      { signal := "GOOD ENTRY", quality := "GOOD", score := score
        reasons := reasons, signal_color := "blue" }
    else if score ≥ 45 then
      { signal := "WAIT FOR DIP", quality := "FAIR", score := score
        reasons := reasons, signal_color := "yellow" }
    else
      { signal := "AVOID", quality := "POOR", score := score
        reasons := reasons, signal_color := "red" }

/-- Option model row (apps/ibkr/models.py) restricted to the fields the
signal generator reads.  `expiry_dte` is the derived
`(expiry_date - timezone.now().date()).days`. -/
structure OptionRec where
  option_type : String
  strike : ℚ
  expiry_dte : Int
  bid : Option ℚ
  ask : Option ℚ
  last : Option ℚ
  open_interest : Int
  implied_volatility : Option ℚ
  delta : Option ℚ
  deriving Repr, DecidableEq

/-- Option.mid_price property (models.py): midpoint of bid/ask when both are
truthy, otherwise the last trade price. -/
def OptionRec.mid_price (o : OptionRec) : Option ℚ :=
  if qtruthy o.bid && qtruthy o.ask then some ((o.bid.getD 0 + o.ask.getD 0) / 2)
  else o.last

/-- UserConfig model (models.py) fields used by signal generation. -/
structure UserConfig where
  min_dte : Int
  max_dte : Int
  min_delta : ℚ
  max_delta : ℚ
  max_iv : ℚ
  deriving Repr, DecidableEq

/-- UserConfig defaults (models.py lines 147-151). -/
def defaultConfig : UserConfig :=
  { min_dte := 7, max_dte := 45, min_delta := -38/100, max_delta := -20/100,
    max_iv := 129/100 }

/-- MarketDataService._meets_criteria (market_data.py lines 637-656):
DTE window, signed-delta window, IV ceiling. -/
def _meets_criteria (o : OptionRec) (config : UserConfig) : Bool :=
  if o.expiry_dte < config.min_dte || o.expiry_dte > config.max_dte then false
  else if qtruthy o.delta &&
      (o.delta.getD 0 > config.max_delta || o.delta.getD 0 < config.min_delta) then false
  else if qtruthy o.implied_volatility &&
      o.implied_volatility.getD 0 > config.max_iv then false
  else true

/-- Score dict returned by _calculate_quality_score.  The stored component
scores are the integer point sums; `technical_reason` free text is
presentation-only and omitted. -/
structure ScoreData where
  quality_score : Int
  stock_score : Nat
  technical_score : Nat
  options_score : Nat
  assignment_risk : ℚ
  deriving Repr, DecidableEq

/-- ROE tier of the stock-quality block of _calculate_quality_score
(market_data.py lines 514-523). -/
def qsRoePoints (stock : Stock) : Nat :=
  if qtruthy stock.roe then
    if stock.roe.getD 0 ≥ 20 then 10 else if stock.roe.getD 0 ≥ 15 then 7
    else if stock.roe.getD 0 ≥ 10 then 5 else 0
  else 0

/-- Market-cap tier of the stock-quality block (lines 525-533). -/
def qsMcapPoints (stock : Stock) : Nat :=
  if qtruthy stock.market_cap then
    if stock.market_cap.getD 0 ≥ 100000000000 then 10
    else if stock.market_cap.getD 0 ≥ 10000000000 then 7
    else if stock.market_cap.getD 0 ≥ 1000000000 then 5 else 0
  else 0

/-- Beta tier of the stock-quality block (lines 535-543). -/
def qsBetaPoints (stock : Stock) : Nat :=
  if qtruthy stock.beta then
    if stock.beta.getD 0 < 8/10 then 10 else if stock.beta.getD 0 < 12/10 then 7
    else if stock.beta.getD 0 < 15/10 then 4 else 0
  else 0

/-- Volume tier of the stock-quality block (lines 545-553). -/
def qsVolumePoints (stock : Stock) : Nat :=
  if qtruthy stock.avg_volume then
    if stock.avg_volume.getD 0 ≥ 10000000 then 10
    else if stock.avg_volume.getD 0 ≥ 5000000 then 7
    else if stock.avg_volume.getD 0 ≥ 1000000 then 5 else 0
  else 0

/-- Stock-quality points of _calculate_quality_score
(market_data.py lines 512-553): ROE, market cap, beta, volume tiers. -/
def qsStockPoints (stock : Stock) : Nat :=
  qsRoePoints stock + qsMcapPoints stock + qsBetaPoints stock + qsVolumePoints stock

/-- RSI-signal tier of the technical block (lines 560-565). -/
def qsRsiSignalPoints (ind : StockIndicator) : Nat :=
  if ind.rsi_signal == "OVERSOLD" then 15
  else if ind.rsi_signal == "NEUTRAL" then 10 else 0

/-- EMA-trend tier of the technical block (lines 567-572). -/
def qsTrendPoints (ind : StockIndicator) : Nat :=
  if ind.ema_trend == "BULLISH" then 10
  else if ind.ema_trend == "NEUTRAL" then 5 else 0

/-- Near-support tier of the technical block (lines 574-577). -/
def qsSupportPoints (stock : Stock) (ind : StockIndicator) : Nat :=
  if ind.near_support stock.last_price then 10 else 0

/-- Technical-setup points of _calculate_quality_score
(market_data.py lines 555-581): RSI signal, EMA trend, near-support; a stock
with no StockIndicator row (DoesNotExist) gets the fixed neutral score 15. -/
def qsTechnicalPoints (stock : Stock) : Nat :=
  match stock.indicators with
  | none => 15
  | some ind => qsRsiSignalPoints ind + qsTrendPoints ind + qsSupportPoints stock ind

/-- Delta tier of the options-metrics block (lines 585-594). -/
def qsDeltaPoints (o : OptionRec) : Nat :=
  if qtruthy o.delta then
    if 1/4 ≤ |o.delta.getD 0| ∧ |o.delta.getD 0| ≤ 35/100 then 10
    else if 1/5 ≤ |o.delta.getD 0| ∧ |o.delta.getD 0| ≤ 2/5 then 7
    else if 3/20 ≤ |o.delta.getD 0| ∧ |o.delta.getD 0| ≤ 9/20 then 4 else 0
  else 0

/-- APY tier of the options-metrics block (lines 596-606). -/
def qsApyPoints (apy_pct : ℚ) : Nat :=
  if apy_pct ≥ 30 then 10 else if apy_pct ≥ 20 then 8
  else if apy_pct ≥ 15 then 6 else if apy_pct ≥ 10 then 4 else 0

/-- IV tier of the options-metrics block (lines 608-614). -/
def qsIvPoints (o : OptionRec) : Nat :=
  if qtruthy o.implied_volatility then
    if 30 ≤ o.implied_volatility.getD 0 * 100 ∧ o.implied_volatility.getD 0 * 100 ≤ 60 then 5
    else if 20 ≤ o.implied_volatility.getD 0 * 100 ∧ o.implied_volatility.getD 0 * 100 ≤ 80 then 3
    else 0
  else 0

/-- Options-metrics points of _calculate_quality_score
(market_data.py lines 583-614): delta window, APY tiers, IV window. -/
def qsOptionsPoints (o : OptionRec) (apy_pct : ℚ) : Nat :=
  qsDeltaPoints o + qsApyPoints apy_pct + qsIvPoints o

/-- MarketDataService._calculate_quality_score (market_data.py lines 497-635):
three point sums combined with the advertised 40/35/25 weighting
`int(stock/40*40 + technical/35*35 + options/25*25)` (kept verbatim), plus
delta-based assignment risk. -/
def _calculate_quality_score (stock : Stock) (o : OptionRec) (apy_pct : ℚ) : ScoreData :=
  let s := qsStockPoints stock
  let t := qsTechnicalPoints stock
  let op := qsOptionsPoints o apy_pct
  { quality_score :=
      pyInt ((s : ℚ) / 40 * 40 + (t : ℚ) / 35 * 35 + (op : ℚ) / 25 * 25)
    stock_score := s
    technical_score := t
    options_score := op
    assignment_risk := if qtruthy o.delta then |o.delta.getD 0 * 100| else 30 }

/-- Persisted Signal row as created by the generators (Signal.objects.create
arguments; free-text reasoning omitted). -/
structure SignalRow where
  signal_type : String
  premium : ℚ
  err_pct : ℚ
  apy_pct : ℚ
  break_even : ℚ
  max_loss_pct : ℚ
  quality_score : Int
  stock_score : Nat
  technical_score : Nat
  options_score : Nat
  assignment_risk : ℚ
  status : String
  deriving Repr, DecidableEq

/-- Body of the per-PUT loop of _generate_put_signals
(market_data.py lines 255-320): filter criteria, the ~0.30 delta window,
premium/strike guards, metric computation, and the quality gate
`if score_data['quality_score'] < 60: continue`. -/
def putCandidateSignal (stock : Stock) (config : UserConfig) (put : OptionRec) :
    Option SignalRow :=
  if !_meets_criteria put config then none
  else if qtruthy put.delta &&
      (|put.delta.getD 0| < 1/4 || |put.delta.getD 0| > 35/100) then none
  else if put.expiry_dte ≤ 0 then none
  else
    let premium := if qtruthy put.mid_price then put.mid_price.getD 0 else 0
    if put.strike = 0 || premium = 0 then none
    else
      let err_pct := premium / (put.strike * 100) * 100
      let apy_pct := if put.expiry_dte > 0 then err_pct * 365 / (put.expiry_dte : ℚ) else 0
      let sd := _calculate_quality_score stock put apy_pct
      if sd.quality_score < 60 then none
      else some
        { signal_type := "CASH_SECURED_PUT"
          premium := premium, err_pct := err_pct, apy_pct := apy_pct
          break_even := put.strike - premium / 100
          max_loss_pct := 30
          quality_score := sd.quality_score
          stock_score := sd.stock_score
          technical_score := sd.technical_score
          options_score := sd.options_score
          assignment_risk := sd.assignment_risk
          status := "OPEN" }

/-- PUT loop with the created-signal counter and the `signals_created >= 2`
break (market_data.py lines 321-325). -/
def putSignalLoop (stock : Stock) (config : UserConfig) :
    List OptionRec → Nat → List SignalRow
  | [], _ => []
  | p :: ps, created =>
    match putCandidateSignal stock config p with
    | none => putSignalLoop stock config ps created
    | some s => if created + 1 ≥ 2 then [s] else s :: putSignalLoop stock config ps (created + 1)

/-- MarketDataService._generate_put_signals for one stock
(market_data.py lines 221-327): skip when indicators are missing or the EMA
trend is BEARISH; iterate the PUT chain (queryset filter
`option_type='PUT', expiry_date >= today`). -/
def _generate_put_signals (stock : Stock) (config : UserConfig)
    (options : List OptionRec) : List SignalRow :=
  match stock.indicators with
  | none => []
  | some ind =>
    if ind.ema_trend == "BEARISH" then []
    else
      let puts := options.filter fun o => o.option_type == "PUT" && o.expiry_dte ≥ 0
      putSignalLoop stock config puts 0

/-- Body of the per-CALL loop of _generate_covered_call_signals
(market_data.py lines 395-450): DTE window, the ~0.30 delta window, the
premium guard, metric computation — and Signal.objects.create with NO quality
gate.  A zero strike would raise in Python; rational division by zero yields
0 here and the claims never exercise it. -/
def ccCandidateSignal (stock : Stock) (config : UserConfig) (call : OptionRec) :
    Option SignalRow :=
  if call.expiry_dte < config.min_dte || call.expiry_dte > config.max_dte then none
  else if qtruthy call.delta &&
      (call.delta.getD 0 < 1/4 || call.delta.getD 0 > 35/100) then none
  else
    let premium := if qtruthy call.mid_price then call.mid_price.getD 0 else 0
    if premium = 0 then none
    else
      let err_pct := premium / (call.strike * 100) * 100
      let apy_pct := if call.expiry_dte > 0 then err_pct * 365 / (call.expiry_dte : ℚ) else 0
      let sd := _calculate_quality_score stock call apy_pct
      some
        { signal_type := "COVERED_CALL"
          premium := premium, err_pct := err_pct, apy_pct := apy_pct
          break_even := stock.last_price.getD 0 - premium / 100
          max_loss_pct := 100
          quality_score := sd.quality_score
          stock_score := sd.stock_score
          technical_score := sd.technical_score
          options_score := sd.options_score
          assignment_risk := sd.assignment_risk
          status := "OPEN" }

/-- CALL loop with the created-signal counter and the `signals_created >= 2`
break (market_data.py lines 451-455). -/
def ccSignalLoop (stock : Stock) (config : UserConfig) :
    List OptionRec → Nat → List SignalRow
  | [], _ => []
  | c :: cs, created =>
    match ccCandidateSignal stock config c with
    | none => ccSignalLoop stock config cs created
    | some s => if created + 1 ≥ 2 then [s] else s :: ccSignalLoop stock config cs (created + 1)

/-- MarketDataService._generate_covered_call_signals for one active position's
stock (market_data.py lines 361-457): skip when indicators are missing;
iterate the CALL chain (queryset filter `option_type='CALL',
strike > stock.last_price, expiry_date >= today`).  There is no
quality-score threshold in this path. -/
def _generate_covered_call_signals (stock : Stock) (config : UserConfig)
    (options : List OptionRec) : List SignalRow :=
  match stock.indicators with
  | none => []
  | some _ =>
    let calls := options.filter fun o =>
      o.option_type == "CALL" && decide (stock.last_price.getD 0 < o.strike)
        && o.expiry_dte ≥ 0
    ccSignalLoop stock config calls 0

/-- Signal model (models.py lines 72-128): the persisted trade
recommendation.  Foreign keys are ids; timestamps are abstract counters. -/
structure Signal where
  stock_id : Nat
  option_id : Nat
  signal_type : String
  premium : ℚ
  err_pct : ℚ
  apy_pct : ℚ
  break_even : ℚ
  max_loss_pct : ℚ
  quality_score : Int
  grade : String
  stock_score : ℚ
  technical_score : ℚ
  options_score : ℚ
  assignment_risk : Option ℚ
  technical_reason : String
  status : String
  generated_at : Nat
  notes : String
  deriving Repr, DecidableEq

/-- Signal.save (models.py lines 120-128): recomputes `grade` from
`quality_score` (80/60 thresholds) before persisting; every other field is
stored as-is by `super().save()`. -/
def Signal.save (s : Signal) : Signal :=
  { s with grade :=
      if s.quality_score ≥ 80 then "A"
      else if s.quality_score ≥ 60 then "B"
      else "C" }

/-- Stock reference as seen from an Alert (only `last_price` is read). -/
structure StockRef where
  last_price : Option ℚ
  deriving Repr, DecidableEq

/-- OptionPosition reference as seen from an Alert: its stock, the live
premium, and the derived days-to-expiry. -/
structure PositionRef where
  stock : StockRef
  current_premium : Option ℚ
  dte : Int
  deriving Repr, DecidableEq

/-- Alert model (models.py lines 438-531) restricted to what check_trigger
and trigger read or write. -/
structure Alert where
  alert_type : String
  status : String
  stock : Option StockRef
  position : Option PositionRef
  target_stock_price : Option ℚ
  target_premium : Option ℚ
  trigger_above : Bool
  triggered_at : Option Nat
  last_checked : Option Nat
  deriving Repr, DecidableEq

/-- Alert.check_trigger (models.py lines 495-531).  Mirrors the early
returns; a price/premium branch whose comparisons fail falls through to the
final `return False` because the alert_type guards are mutually exclusive. -/
def Alert.check_trigger (a : Alert) : Bool :=
  if a.status != "ACTIVE" then false
  else if (a.alert_type == "STOCK_PRICE" || a.alert_type == "ASSIGNMENT_RISK")
      && qtruthy a.target_stock_price then
    -- stock = self.stock or (self.position.stock if self.position else None)
    match (match a.stock with | some s => some s | none => a.position.map PositionRef.stock) with
    | none => false
    | some st =>
      if !qtruthy st.last_price then false
      else
        let current := st.last_price.getD 0
        let target := a.target_stock_price.getD 0
        if a.trigger_above && current ≥ target then true
        else if !a.trigger_above && current ≤ target then true
        else false
  else if (a.alert_type == "OPTION_PREMIUM" || a.alert_type == "50_PERCENT_PROFIT")
      && qtruthy a.target_premium && a.position.isSome then
    match a.position with
    | none => false
    | some p =>
      if !qtruthy p.current_premium then false
      else if p.current_premium.getD 0 ≤ a.target_premium.getD 0 then true
      else false
  else if a.alert_type == "EXPIRATION_WARNING" && a.position.isSome then
    match a.position with
    | none => false
    | some p => if p.dte ≤ 3 then true else false
  else false

/-- Alert.trigger (models.py lines 533-544): one-way transition to
TRIGGERED with a timestamp; notification sends are I/O no-ops. -/
def Alert.trigger (now : Nat) (a : Alert) : Alert :=
  { a with status := "TRIGGERED", triggered_at := some now }

/-- One evaluation of an alert by AlertService.check_all_alerts
(alert_service.py lines 17-34): the queryset only selects ACTIVE alerts, so a
non-ACTIVE alert is untouched; an ACTIVE alert gets `last_checked` stamped
and is triggered when check_trigger returns True. -/
def alertStep (now : Nat) (a : Alert) : Alert :=
  if a.status == "ACTIVE" then
    let a1 := { a with last_checked := some now }
    if a1.check_trigger then Alert.trigger now a1 else a1
  else a

/-- Consecutive day-over-day differences of a close series
(`df['Close'].diff()` without its leading NaN). -/
def diffs : List ℚ → List ℚ
  | a :: b :: rest => (b - a) :: diffs (b :: rest)
  | _ => []

/-- Positive part of a delta (`delta.where(delta > 0, 0)`). -/
def gainPart (x : ℚ) : ℚ := if x > 0 then x else 0

/-- Negated negative part of a delta (`-delta.where(delta < 0, 0)`). -/
def lossPart (x : ℚ) : ℚ := if x < 0 then -x else 0

/-- Gain series of calculate_rsi: pandas `where` coerces the leading NaN of
`diff()` to 0, so the series starts with 0. -/
def gainSeries (closes : List ℚ) : List ℚ := 0 :: (diffs closes).map gainPart

/-- Loss series of calculate_rsi, leading NaN likewise coerced to 0. -/
def lossSeries (closes : List ℚ) : List ℚ := 0 :: (diffs closes).map lossPart

/-- TechnicalAnalysisService.calculate_rsi (technical_analysis.py lines
42-82): rolling 14-period means of gains and losses taken at the final bar,
`RSI = 100 - 100/(1 + gain/loss)`.  With fewer than 14 bars the rolling mean
is NaN and the function returns (None, NEUTRAL).  When the average loss is 0,
IEEE semantics give RS = inf and RSI = 100 if the average gain is positive,
and RS = NaN hence (None, NEUTRAL) if it is 0. -/
def calculate_rsi (closes : List ℚ) : Option ℚ × String :=
  if closes.length < 14 then (none, "NEUTRAL")
  else
    let g := gainSeries closes
    let l := lossSeries closes
    let gwin := g.drop (g.length - 14)
    let lwin := l.drop (l.length - 14)
    let avg_gain := gwin.sum / 14
    let avg_loss := lwin.sum / 14
    if avg_loss = 0 then
      if avg_gain = 0 then (none, "NEUTRAL")
      else (some 100, "OVERBOUGHT")
    else
      let rsi := 100 - 100 / (1 + avg_gain / avg_loss)
      (some rsi,
        if rsi < 30 then "OVERSOLD" else if rsi > 70 then "OVERBOUGHT" else "NEUTRAL")

/-- Result dict of calculate_bollinger_bands; `none` models a NaN band. -/
structure BollingerBands where
  bb_upper : Option ℚ
  bb_middle : Option ℚ
  bb_lower : Option ℚ
  bb_position : String
  deriving Repr, DecidableEq

/-- Position-label branch of calculate_bollinger_bands (technical_analysis.py
lines 149-159): empty string when a band is NaN, otherwise one of the four
human-readable labels. -/
def bbPositionLabel (current_price : ℚ) (upper middle lower : Option ℚ) : String :=
  match upper, lower with
  | some u, some lo =>
    if current_price > u then "Above Upper (Overbought)"
    else if current_price < lo then "Below Lower (Oversold)"
    else if current_price > middle.getD 0 then "Upper Half"
    else "Lower Half"
  | _, _ => ""

/-- TechnicalAnalysisService.calculate_bollinger_bands (technical_analysis.py
lines 121-174): 20-period SMA middle band, upper/lower at ±2 rolling standard
deviations.  The rolling standard deviation is irrational in general, so its
final value is taken as the parameter `rstd`; with fewer than 20 bars the
rolling statistics are NaN (`none`), and an empty series takes the exception
path, which also returns the empty position label. -/
def calculate_bollinger_bands (closes : List ℚ) (rstd : ℚ) : BollingerBands :=
  match closes.getLast? with
  | none => { bb_upper := none, bb_middle := none, bb_lower := none, bb_position := "" }
  | some current_price =>
    if closes.length < 20 then
      { bb_upper := none, bb_middle := none, bb_lower := none, bb_position := "" }
    else
      let sma := (closes.drop (closes.length - 20)).sum / 20
      let upper := sma + rstd * 2
      let lower := sma - rstd * 2
      { bb_upper := some upper, bb_middle := some sma, bb_lower := some lower
        bb_position := bbPositionLabel current_price (some upper) (some sma) (some lower) }

/-- Insertion step of ascending sort (Python `sorted`). -/
def insertAscQ (x : ℚ) : List ℚ → List ℚ
  | [] => [x]
  | y :: ys => if x ≤ y then x :: y :: ys else y :: insertAscQ x ys

/-- Ascending sort by insertion, modelling Python `sorted(levels)`. -/
def sortAscQ (l : List ℚ) : List ℚ := l.foldr insertAscQ []

/-- Insertion step of descending sort (Python `sorted(..., reverse=True)`). -/
def insertDescQ (x : ℚ) : List ℚ → List ℚ
  | [] => [x]
  | y :: ys => if y ≤ x then x :: y :: ys else y :: insertDescQ x ys

/-- Descending sort by insertion, modelling `sorted(levels, reverse=True)`. -/
def sortDescQ (l : List ℚ) : List ℚ := l.foldr insertDescQ []

/-- np.median of a nonempty list: middle element of the sorted list, or the
mean of the two middle elements for even length. -/
def npMedian (l : List ℚ) : ℚ :=
  let s := sortAscQ l
  if s.length % 2 = 1 then s.getD (s.length / 2) 0
  else (s.getD (s.length / 2 - 1) 0 + s.getD (s.length / 2) 0) / 2

/-- Minimum of a nonempty list (np.min over a window slice). -/
def listMin : List ℚ → ℚ
  | [] => 0
  | [x] => x
  | x :: y :: rest => min x (listMin (y :: rest))

/-- Maximum of a nonempty list (np.max over a window slice). -/
def listMax : List ℚ → ℚ
  | [] => 0
  | [x] => x
  | x :: y :: rest => max x (listMax (y :: rest))

/-- OHLCV frame columns used by detect_support_resistance. -/
structure OHLCVFrame where
  closes : List ℚ
  highs : List ℚ
  lows : List ℚ
  deriving Repr, DecidableEq

/-- Support candidates of detect_support_resistance (technical_analysis.py
lines 200-203): bars whose low is the minimum of the centered 21-bar window,
scanned for i in range(10, len(closes) - 10). -/
def supportCandidates (f : OHLCVFrame) : List ℚ :=
  (List.range f.closes.length).filterMap fun i =>
    if 10 ≤ i ∧ i + 10 < f.closes.length then
      let v := f.lows.getD i 0
      if v = listMin ((f.lows.drop (i - 10)).take 21) then some v else none
    else none

/-- Resistance candidates (lines 205-207): bars whose high is the maximum of
the centered 21-bar window. -/
def resistanceCandidates (f : OHLCVFrame) : List ℚ :=
  (List.range f.closes.length).filterMap fun i =>
    if 10 ≤ i ∧ i + 10 < f.closes.length then
      let v := f.highs.getD i 0
      if v = listMax ((f.highs.drop (i - 10)).take 21) then some v else none
    else none

/-- Inner clustering walk of cluster_levels (technical_analysis.py lines
216-228): merge the next sorted level into the running cluster while it is
within 2% of the last accepted value, emitting the cluster median at each
break.  `cur` is the running cluster, kept nonempty. -/
def clusterWalk (cur : List ℚ) (last : ℚ) : List ℚ → List ℚ
  | [] => [npMedian cur]
  | l :: ls =>
    if |l - last| / last ≤ 2/100 then clusterWalk (cur ++ [l]) l ls
    else npMedian cur :: clusterWalk [l] l ls

/-- cluster_levels (technical_analysis.py lines 210-230): sort ascending and
merge-by-proximity with a 2% tolerance, taking the median of each cluster. -/
def cluster_levels (levels : List ℚ) : List ℚ :=
  match sortAscQ levels with
  | [] => []
  | x :: xs => clusterWalk [x] x xs

/-- Result of detect_support_resistance: three slots per side. -/
structure SRLevels where
  support_levels : List (Option ℚ)
  resistance_levels : List (Option ℚ)
  deriving Repr, DecidableEq

/-- Pad a slot list with `None` up to three entries
(technical_analysis.py lines 247-251). -/
def padTo3 (l : List (Option ℚ)) : List (Option ℚ) :=
  l ++ List.replicate (3 - l.length) none

/-- TechnicalAnalysisService.detect_support_resistance (technical_analysis.py
lines 177-262): local-extrema candidates, 2%-clustering, then keep up to 3
supports strictly below the last close sorted descending (closest first) and
up to 3 resistances strictly above it sorted ascending, padding with None.
An empty close series raises IndexError and the except branch returns all
None slots. -/
def detect_support_resistance (f : OHLCVFrame) : SRLevels :=
  match f.closes.getLast? with
  | none =>
    { support_levels := List.replicate 3 none, resistance_levels := List.replicate 3 none }
  | some current_price =>
    let sup := cluster_levels (supportCandidates f)
    let res := cluster_levels (resistanceCandidates f)
    let supports_below := (sortDescQ (sup.filter fun s => s < current_price)).take 3
    let resistance_above := (sortAscQ (res.filter fun r => current_price < r)).take 3
    { support_levels := padTo3 (supports_below.map some)
      resistance_levels := padTo3 (resistance_above.map some) }

/-- Indicator snapshot of the gated-PUT scenario: oversold RSI, bullish
trend, support right at the current price. -/
def c3Ind : StockIndicator :=
  { rsi := some 28
    rsi_signal := "OVERSOLD"
    ema_trend := "BULLISH"
    bb_position := ""
    support_level_1 := some 50
    support_level_2 := none
    support_level_3 := none
    resistance_level_1 := none
    resistance_level_2 := none
    resistance_level_3 := none }

/-- Strong-fundamentals stock for the gated-PUT scenario. -/
def c3Stock : Stock :=
  { last_price := some 50
    market_cap := some 200000000000
    beta := some (1/2)
    roe := some 25
    dividend_yield := none
    avg_volume := some 20000000
    fifty_two_week_high := none
    fifty_two_week_low := none
    has_options := true
    avg_put_iv := some (2/5)
    avg_put_oi := some 600
    indicators := some c3Ind }

/-- A 30-DTE 0.30-delta PUT that passes every filter of the PUT generator. -/
def c3Put : OptionRec :=
  { option_type := "PUT", strike := 50, expiry_dte := 30
    bid := some 2, ask := some 2, last := none
    open_interest := 600, implied_volatility := some (2/5), delta := some (-3/10) }

/-- Indicator snapshot with nothing in the stock's favour: overbought RSI,
bearish trend, no support levels. -/
def ccInd : StockIndicator :=
  { rsi := none
    rsi_signal := "OVERBOUGHT"
    ema_trend := "BEARISH"
    bb_position := ""
    support_level_1 := none
    support_level_2 := none
    support_level_3 := none
    resistance_level_1 := none
    resistance_level_2 := none
    resistance_level_3 := none }

/-- Owned stock with no recorded fundamentals for the covered-call
counterexample. -/
def ccStock : Stock :=
  { last_price := some 20
    market_cap := none
    beta := none
    roe := none
    dividend_yield := none
    avg_volume := none
    fifty_two_week_high := none
    fifty_two_week_low := none
    has_options := true
    avg_put_iv := none
    avg_put_oi := none
    indicators := some ccInd }

/-- An OTM CALL with no Greeks and a tiny premium: every quality component
scores 0, yet the covered-call generator persists the signal. -/
def ccCall : OptionRec :=
  { option_type := "CALL", strike := 25, expiry_dte := 30
    bid := none, ask := none, last := some 1
    open_interest := 0, implied_volatility := none, delta := none }

/-- Stock with strong fundamentals but no StockIndicator row. -/
def c10Stock : Stock :=
  { last_price := some 50
    market_cap := some 200000000000
    beta := some (1/2)
    roe := some 25
    dividend_yield := none
    avg_volume := some 20000000
    fifty_two_week_high := none
    fifty_two_week_low := none
    has_options := true
    avg_put_iv := none
    avg_put_oi := none
    indicators := none }

/-- A 0.30-delta PUT used with the indicator-less stock. -/
def c10Opt : OptionRec :=
  { option_type := "PUT", strike := 50, expiry_dte := 30
    bid := none, ask := none, last := none
    open_interest := 0, implied_volatility := none, delta := some (-3/10) }

/-- A stock-price alert that has already fired: its price condition would
still hold, but the status is TRIGGERED. -/
def c6Alert : Alert :=
  { alert_type := "STOCK_PRICE"
    status := "TRIGGERED"
    stock := some { last_price := some 10 }
    position := none
    target_stock_price := some 5
    target_premium := none
    trigger_above := true
    triggered_at := some 1
    last_checked := none }

/-- Strictly increasing 15-bar close series. -/
def c7Up : List ℚ := [1, 2, 3, 4, 5, 6, 7, 8, 9, 10, 11, 12, 13, 14, 15]

/-- Strictly decreasing 15-bar close series. -/
def c7Down : List ℚ := [15, 14, 13, 12, 11, 10, 9, 8, 7, 6, 5, 4, 3, 2, 1]

/-- Default row used only to take the head of a generated signal list. -/
def blankRow : SignalRow :=
  { signal_type := "", premium := 0, err_pct := 0, apy_pct := 0, break_even := 0
    max_loss_pct := 0, quality_score := 0, stock_score := 0, technical_score := 0
    options_score := 0, assignment_risk := 0, status := "" }

/-- Small OHLCV frame (25 flat bars with one dip and one spike) used to
instantiate the support/resistance theorem. -/
def c5Frame : OHLCVFrame :=
  { closes := List.replicate 25 10
    highs := List.replicate 12 10 ++ [12] ++ List.replicate 12 10
    lows := List.replicate 12 10 ++ [8] ++ List.replicate 12 10 }

/-- The signal row the PUT generator creates for c3Stock/c3Put. -/
def c3Row : SignalRow :=
  { signal_type := "CASH_SECURED_PUT", premium := 2, err_pct := 1/25, apy_pct := 73/150
    break_even := 50 - 2/100, max_loss_pct := 30, quality_score := 90
    stock_score := 40, technical_score := 35, options_score := 15
    assignment_risk := 30, status := "OPEN" }

/-- The signal row the covered-call generator creates for ccStock/ccCall:
its quality_score is 0, yet it is persisted. -/
def ccRow : SignalRow :=
  { signal_type := "COVERED_CALL", premium := 1, err_pct := 1/25, apy_pct := 73/150
    break_even := 20 - 1/100, max_loss_pct := 100, quality_score := 0
    stock_score := 0, technical_score := 0, options_score := 0
    assignment_risk := 30, status := "OPEN" }

theorem pyInt_natCast (n : ℕ) : pyInt ((n : ℚ)) = n := by
  simp [pyInt]

theorem quality_score_eq_sum (stock : Stock) (o : OptionRec) (apy_pct : ℚ) :
    (_calculate_quality_score stock o apy_pct).quality_score
      = ((qsStockPoints stock + qsTechnicalPoints stock + qsOptionsPoints o apy_pct : ℕ) : ℤ) := by
  have h : ((qsStockPoints stock : ℚ) / 40 * 40 + (qsTechnicalPoints stock : ℚ) / 35 * 35
      + (qsOptionsPoints o apy_pct : ℚ) / 25 * 25)
      = ((qsStockPoints stock + qsTechnicalPoints stock + qsOptionsPoints o apy_pct : ℕ) : ℚ) := by
    push_cast
    field_simp
  show pyInt ((qsStockPoints stock : ℚ) / 40 * 40 + (qsTechnicalPoints stock : ℚ) / 35 * 35
      + (qsOptionsPoints o apy_pct : ℚ) / 25 * 25)
      = ((qsStockPoints stock + qsTechnicalPoints stock + qsOptionsPoints o apy_pct : ℕ) : ℤ)
  rw [h, pyInt_natCast]

theorem qsRoePoints_le (stock : Stock) : qsRoePoints stock ≤ 10 := by
  unfold qsRoePoints
  split_ifs <;> omega

theorem qsMcapPoints_le (stock : Stock) : qsMcapPoints stock ≤ 10 := by
  unfold qsMcapPoints
  split_ifs <;> omega

theorem qsBetaPoints_le (stock : Stock) : qsBetaPoints stock ≤ 10 := by
  unfold qsBetaPoints
  split_ifs <;> omega

theorem qsVolumePoints_le (stock : Stock) : qsVolumePoints stock ≤ 10 := by
  unfold qsVolumePoints
  split_ifs <;> omega

theorem qsStockPoints_le (stock : Stock) : qsStockPoints stock ≤ 40 := by
  have h1 := qsRoePoints_le stock
  have h2 := qsMcapPoints_le stock
  have h3 := qsBetaPoints_le stock
  have h4 := qsVolumePoints_le stock
  unfold qsStockPoints
  omega

theorem qsTechnicalPoints_le (stock : Stock) : qsTechnicalPoints stock ≤ 35 := by
  cases hi : stock.indicators with
  | none => simp [qsTechnicalPoints, hi]
  | some ind =>
    have h1 : qsRsiSignalPoints ind ≤ 15 := by unfold qsRsiSignalPoints; split_ifs <;> omega
    have h2 : qsTrendPoints ind ≤ 10 := by unfold qsTrendPoints; split_ifs <;> omega
    have h3 : qsSupportPoints stock ind ≤ 10 := by unfold qsSupportPoints; split_ifs <;> omega
    simp only [qsTechnicalPoints, hi]
    omega

theorem qsOptionsPoints_le (o : OptionRec) (apy_pct : ℚ) : qsOptionsPoints o apy_pct ≤ 25 := by
  have h1 : qsDeltaPoints o ≤ 10 := by unfold qsDeltaPoints; split_ifs <;> omega
  have h2 : qsApyPoints apy_pct ≤ 10 := by unfold qsApyPoints; split_ifs <;> omega
  have h3 : qsIvPoints o ≤ 5 := by unfold qsIvPoints; split_ifs <;> omega
  unfold qsOptionsPoints
  omega

/-- C9: the composite quality_score of _calculate_quality_score equals the
plain integer sum of the three sub-scores — the 40/35/25 weighting
`int(stock/40*40 + technical/35*35 + options/25*25)` cancels to the identity
under exact arithmetic — and therefore lies in [0, 100]. -/
theorem quality_score_composite (stock : Stock) (o : OptionRec) (apy_pct : ℚ) :
    ((_calculate_quality_score stock o apy_pct).quality_score
      = ((_calculate_quality_score stock o apy_pct).stock_score : ℤ)
        + ((_calculate_quality_score stock o apy_pct).technical_score : ℤ)
        + ((_calculate_quality_score stock o apy_pct).options_score : ℤ))
    ∧ 0 ≤ (_calculate_quality_score stock o apy_pct).quality_score
    ∧ (_calculate_quality_score stock o apy_pct).quality_score ≤ 100 := by
  have hsum := quality_score_eq_sum stock o apy_pct
  have hs := qsStockPoints_le stock
  have ht := qsTechnicalPoints_le stock
  have ho := qsOptionsPoints_le o apy_pct
  have hfields : (_calculate_quality_score stock o apy_pct).stock_score = qsStockPoints stock
      ∧ (_calculate_quality_score stock o apy_pct).technical_score = qsTechnicalPoints stock
      ∧ (_calculate_quality_score stock o apy_pct).options_score = qsOptionsPoints o apy_pct := by
    unfold _calculate_quality_score
    exact ⟨rfl, rfl, rfl⟩
  obtain ⟨h1, h2, h3⟩ := hfields
  rw [hsum, h1, h2, h3]
  push_cast
  omega

/-- C10: when a stock has no StockIndicator row, _calculate_quality_score
assigns the technical sub-score the fixed neutral value 15 rather than 0;
with strong fundamentals and an optimal delta such a stock still reaches the
quality_score ≥ 60 emission threshold with no technical data at all. -/
theorem quality_score_missing_indicators :
    (∀ (stock : Stock) (o : OptionRec) (apy_pct : ℚ), stock.indicators = none →
      (_calculate_quality_score stock o apy_pct).technical_score = 15)
    ∧ c10Stock.indicators = none
    ∧ 60 ≤ (_calculate_quality_score c10Stock c10Opt 0).quality_score := by
  refine ⟨fun stock o apy h => ?_, rfl, ?_⟩
  · unfold _calculate_quality_score qsTechnicalPoints
    rw [h]
  · rw [quality_score_eq_sum]
    have hs : qsStockPoints c10Stock = 40 := by
      norm_num [qsStockPoints, qsRoePoints, qsMcapPoints, qsBetaPoints, qsVolumePoints,
        c10Stock, qtruthy]
    have ht : qsTechnicalPoints c10Stock = 15 := by
      norm_num [qsTechnicalPoints, c10Stock]
    have ho : qsOptionsPoints c10Opt 0 = 10 := by
      have habs : |(3/10 : ℚ)| = 3/10 := abs_of_pos (by norm_num)
      norm_num [qsOptionsPoints, qsDeltaPoints, qsApyPoints, qsIvPoints, c10Opt,
        qtruthy, habs]
    rw [hs, ht, ho]
    norm_num

/-- Witness for C10's universally quantified part at the concrete
indicator-less stock. -/
theorem quality_score_missing_indicators_witness :
    (_calculate_quality_score c10Stock c10Opt 0).technical_score = 15 :=
  quality_score_missing_indicators.1 c10Stock c10Opt 0 rfl

/-- C1 (amended): on the end-to-end scenario stock (price 45, volume 2M,
cap 50e9, beta 1.0, dividend 2%, RSI 32, BULLISH, PUT IV 30%, PUT OI 600)
calculate_wheel_score returns technical 25, stability 14, liquidity 14
(OI 600 lands in the >500 tier worth 8, not 10), price 10, volatility 15,
total 78 and grade B. -/
theorem wheel_scenario_scores :
    (calculate_wheel_score c1Stock).technical_score = 25
    ∧ (calculate_wheel_score c1Stock).stability_score = 14
    ∧ (calculate_wheel_score c1Stock).liquidity_score = 14
    ∧ (calculate_wheel_score c1Stock).price_score = 10
    ∧ (calculate_wheel_score c1Stock).volatility_score = 15
    ∧ (calculate_wheel_score c1Stock).total_score = 78
    ∧ (calculate_wheel_score c1Stock).grade = "B" := by
  norm_num [calculate_wheel_score, wheelVolatilityScore, wheelLiquidityScore,
    wheelTechnicalScore, wheelStabilityScore, wheelPriceScore, c1Stock, c1Ind, qtruthy]

/-- C1 counterexample: on that same scenario stock the claimed values
liquidity 16 / total 80 / grade A do not hold. -/
theorem wheel_scenario_claim_false :
    ¬((calculate_wheel_score c1Stock).technical_score = 25
      ∧ (calculate_wheel_score c1Stock).stability_score = 14
      ∧ (calculate_wheel_score c1Stock).liquidity_score = 16
      ∧ (calculate_wheel_score c1Stock).price_score = 10
      ∧ (calculate_wheel_score c1Stock).volatility_score = 15
      ∧ (calculate_wheel_score c1Stock).total_score = 80
      ∧ (calculate_wheel_score c1Stock).grade = "A") := by
  have h : (calculate_wheel_score c1Stock).liquidity_score = 14 := by
    norm_num [calculate_wheel_score, wheelVolatilityScore, wheelLiquidityScore,
      wheelTechnicalScore, wheelStabilityScore, wheelPriceScore, c1Stock, c1Ind, qtruthy]
  intro hc
  rw [h] at hc
  omega

/-- C2: immediately after Signal.save the grade is A iff quality_score ≥ 80,
B iff 60 ≤ quality_score < 80 and C otherwise, regardless of the grade set
before saving; every other field is unchanged. -/
theorem signal_save_grade (s : Signal) :
    ((Signal.save s).grade = "A" ↔ 80 ≤ s.quality_score)
    ∧ ((Signal.save s).grade = "B" ↔ 60 ≤ s.quality_score ∧ s.quality_score < 80)
    ∧ ((Signal.save s).grade = "C" ↔ s.quality_score < 60)
    ∧ (Signal.save s).stock_id = s.stock_id
    ∧ (Signal.save s).option_id = s.option_id
    ∧ (Signal.save s).signal_type = s.signal_type
    ∧ (Signal.save s).premium = s.premium
    ∧ (Signal.save s).err_pct = s.err_pct
    ∧ (Signal.save s).apy_pct = s.apy_pct
    ∧ (Signal.save s).break_even = s.break_even
    ∧ (Signal.save s).max_loss_pct = s.max_loss_pct
    ∧ (Signal.save s).quality_score = s.quality_score
    ∧ (Signal.save s).stock_score = s.stock_score
    ∧ (Signal.save s).technical_score = s.technical_score
    ∧ (Signal.save s).options_score = s.options_score
    ∧ (Signal.save s).assignment_risk = s.assignment_risk
    ∧ (Signal.save s).technical_reason = s.technical_reason
    ∧ (Signal.save s).status = s.status
    ∧ (Signal.save s).generated_at = s.generated_at
    ∧ (Signal.save s).notes = s.notes := by
  unfold Signal.save
  refine ⟨?_, ?_, ?_, rfl, rfl, rfl, rfl, rfl, rfl, rfl, rfl, rfl, rfl, rfl, rfl,
    rfl, rfl, rfl, rfl, rfl⟩ <;>
    split_ifs <;> simp_all <;> omega

/-- C6: once an alert is not ACTIVE (in particular TRIGGERED), check_trigger
returns False, and the alert-service step leaves the alert unchanged forever,
so an alert transitions to TRIGGERED at most once and never re-triggers. -/
theorem alert_terminal_state (a : Alert) (now : Nat) (h : a.status ≠ "ACTIVE") :
    a.check_trigger = false ∧ (∀ n, (alertStep now)^[n] a = a) := by
  have hb : (a.status != "ACTIVE") = true := by
    simp [bne_iff_ne, h]
  have hct : a.check_trigger = false := by
    unfold Alert.check_trigger
    rw [if_pos hb]
  have hstep : alertStep now a = a := by
    unfold alertStep
    have hbeq : (a.status == "ACTIVE") = false := by
      simp [beq_eq_false_iff_ne, h]
    rw [if_neg (by simp [hbeq])]
  refine ⟨hct, fun n => ?_⟩
  induction n with
  | zero => rfl
  | succ k ih => rw [Function.iterate_succ_apply, hstep, ih]

/-- Witness for C6 at a concrete TRIGGERED stock-price alert whose price
condition would otherwise fire. -/
theorem alert_terminal_state_witness :
    c6Alert.check_trigger = false ∧ (∀ n, (alertStep 7)^[n] c6Alert = c6Alert) :=
  alert_terminal_state c6Alert 7 (by decide)

/-- C8: the bb_position labels that calculate_bollinger_bands can produce are
exactly the empty string and the four human-readable labels, none of which
matches the BELOW_LOWER / MIDDLE / ABOVE_UPPER literals tested by the
Bollinger branch of calculate_entry_signal, so that branch contributes 0
points and appends no reason for every calculator-produced snapshot. -/
theorem bollinger_labels_never_score (closes : List ℚ) (rstd : ℚ) :
    ((calculate_bollinger_bands closes rstd).bb_position
      ∈ ["", "Above Upper (Overbought)", "Below Lower (Oversold)",
          "Upper Half", "Lower Half"])
    ∧ entryBbBlock (calculate_bollinger_bands closes rstd).bb_position = (0, []) := by
  have hlab : ∀ p u m lo : ℚ, (bbPositionLabel p (some u) (some m) (some lo)
      ∈ ["", "Above Upper (Overbought)", "Below Lower (Oversold)",
          "Upper Half", "Lower Half"]) := by
    intro p u m lo
    simp only [bbPositionLabel]
    split_ifs <;> simp
  have hblock : ∀ s, (s ∈ ["", "Above Upper (Overbought)", "Below Lower (Oversold)",
      "Upper Half", "Lower Half"]) → entryBbBlock s = (0, []) := by
    intro s hs
    simp only [List.mem_cons, List.not_mem_nil, or_false] at hs
    rcases hs with rfl | rfl | rfl | rfl | rfl <;> decide
  rcases hl : closes.getLast? with _ | p
  · have hres : calculate_bollinger_bands closes rstd
        = { bb_upper := none, bb_middle := none, bb_lower := none, bb_position := "" } := by
      unfold calculate_bollinger_bands
      rw [hl]
    rw [hres]
    exact ⟨by simp, by decide⟩
  · have hres : (calculate_bollinger_bands closes rstd).bb_position
        = if closes.length < 20 then ""
          else bbPositionLabel p (some ((closes.drop (closes.length - 20)).sum / 20 + rstd * 2))
            (some ((closes.drop (closes.length - 20)).sum / 20))
            (some ((closes.drop (closes.length - 20)).sum / 20 - rstd * 2)) := by
      unfold calculate_bollinger_bands
      simp only [hl, apply_ite BollingerBands.bb_position]
    rw [hres]
    split_ifs with hlen
    · exact ⟨by simp, by decide⟩
    · exact ⟨hlab _ _ _ _, hblock _ (hlab _ _ _ _)⟩

theorem putCandidateSignal_quality (stock : Stock) (config : UserConfig)
    (put : OptionRec) (row : SignalRow)
    (h : putCandidateSignal stock config put = some row) : 60 ≤ row.quality_score := by
  simp only [putCandidateSignal] at h
  split_ifs at h
  all_goals
    injection h with h
    subst h
    exact not_lt.mp (by assumption)

theorem putSignalLoop_quality (stock : Stock) (config : UserConfig) :
    ∀ (puts : List OptionRec) (created : Nat) (s : SignalRow),
      s ∈ putSignalLoop stock config puts created → 60 ≤ s.quality_score := by
  intro puts
  induction puts with
  | nil => intro created s hs; simp [putSignalLoop] at hs
  | cons p ps ih =>
    intro created s hs
    unfold putSignalLoop at hs
    cases hc : putCandidateSignal stock config p with
    | none =>
      rw [hc] at hs
      exact ih created s hs
    | some row =>
      rw [hc] at hs
      split_ifs at hs
      · rw [List.mem_singleton] at hs
        subst hs
        exact putCandidateSignal_quality stock config p s hc
      · rw [List.mem_cons] at hs
        rcases hs with rfl | hs
        · exact putCandidateSignal_quality stock config p s hc
        · exact ih (created + 1) s hs

theorem calc_quality_eval (stock : Stock) (o : OptionRec) (apy_pct : ℚ) :
    _calculate_quality_score stock o apy_pct
      = { quality_score :=
            ((qsStockPoints stock + qsTechnicalPoints stock + qsOptionsPoints o apy_pct : ℕ) : ℤ)
          stock_score := qsStockPoints stock
          technical_score := qsTechnicalPoints stock
          options_score := qsOptionsPoints o apy_pct
          assignment_risk := if qtruthy o.delta then |o.delta.getD 0 * 100| else 30 } := by
  have h := quality_score_eq_sum stock o apy_pct
  rw [← h]
  unfold _calculate_quality_score
  rfl

theorem ccGen_eval :
    _generate_covered_call_signals ccStock defaultConfig [ccCall] = [ccRow] := by
  have h1 : qsStockPoints ccStock = 0 := by
    norm_num [qsStockPoints, qsRoePoints, qsMcapPoints, qsBetaPoints, qsVolumePoints,
      ccStock, qtruthy]
  have h2 : qsTechnicalPoints ccStock = 0 := by
    have ha : qsRsiSignalPoints ccInd = 0 := by decide
    have hb : qsTrendPoints ccInd = 0 := by decide
    have hc : qsSupportPoints ccStock ccInd = 0 := by
      norm_num [qsSupportPoints, StockIndicator.near_support, ccStock, ccInd, qtruthy]
    have hind : ccStock.indicators = some ccInd := rfl
    simp only [qsTechnicalPoints, hind, ha, hb, hc]
  have h3 : ∀ apy : ℚ, apy < 10 → qsOptionsPoints ccCall apy = 0 := by
    intro apy hapy
    have hd : qsDeltaPoints ccCall = 0 := by norm_num [qsDeltaPoints, ccCall, qtruthy]
    have hiv : qsIvPoints ccCall = 0 := by norm_num [qsIvPoints, ccCall, qtruthy]
    have hapy0 : qsApyPoints apy = 0 := by
      unfold qsApyPoints
      split_ifs <;> first | rfl | linarith
    simp only [qsOptionsPoints, hd, hiv, hapy0]
  have p1 : ccCall.expiry_dte = 30 := rfl
  have p2 : ccCall.delta = none := rfl
  have p3 : ccCall.strike = 25 := rfl
  have p4 : OptionRec.mid_price ccCall = some 1 := rfl
  have p5 : ccStock.last_price = some 20 := rfl
  have p6 : defaultConfig.min_dte = 7 := rfl
  have p7 : defaultConfig.max_dte = 45 := rfl
  have p8 : ccCall.option_type = "CALL" := rfl
  have h3a : qsOptionsPoints ccCall (1 / (25 * 100) * 100 * 365 / ((30 : ℤ) : ℚ)) = 0 :=
    h3 _ (by norm_num)
  have h3b : qsOptionsPoints ccCall (73 / 150) = 0 := h3 _ (by norm_num)
  have hcand : ccCandidateSignal ccStock defaultConfig ccCall = some ccRow := by
    norm_num [ccCandidateSignal, calc_quality_eval, p1, p2, p3, p4, p5, p6, p7,
      qtruthy, h1, h2, h3a, h3b, ccRow]
  have hind : ccStock.indicators = some ccInd := rfl
  simp only [_generate_covered_call_signals, hind]
  norm_num [ccSignalLoop, hcand, p1, p3, p5, p8, List.filter]

theorem putGen_eval :
    _generate_put_signals c3Stock defaultConfig [c3Put] = [c3Row] := by
  have habs : |(3/10 : ℚ)| = 3/10 := abs_of_pos (by norm_num)
  have hr30 : |(-30 : ℚ)| = 30 := by
    rw [abs_of_neg (by norm_num : (-30 : ℚ) < 0)]
    norm_num
  have q1 : qsStockPoints c3Stock = 40 := by
    norm_num [qsStockPoints, qsRoePoints, qsMcapPoints, qsBetaPoints, qsVolumePoints,
      c3Stock, qtruthy]
  have q2 : qsTechnicalPoints c3Stock = 35 := by
    have ha : qsRsiSignalPoints c3Ind = 15 := by decide
    have hb : qsTrendPoints c3Ind = 10 := by decide
    have hc : qsSupportPoints c3Stock c3Ind = 10 := by
      norm_num [qsSupportPoints, StockIndicator.near_support, c3Stock, c3Ind, qtruthy]
    have hind : c3Stock.indicators = some c3Ind := rfl
    simp only [qsTechnicalPoints, hind, ha, hb, hc]
  have q3 : ∀ apy : ℚ, apy < 10 → qsOptionsPoints c3Put apy = 15 := by
    intro apy hapy
    have hd : qsDeltaPoints c3Put = 10 := by
      norm_num [qsDeltaPoints, c3Put, qtruthy, habs]
    have hiv : qsIvPoints c3Put = 5 := by norm_num [qsIvPoints, c3Put, qtruthy]
    have hapy0 : qsApyPoints apy = 0 := by
      unfold qsApyPoints
      split_ifs <;> first | rfl | linarith
    simp only [qsOptionsPoints, hd, hiv, hapy0]
  have hm : _meets_criteria c3Put defaultConfig = true := by
    norm_num [_meets_criteria, c3Put, defaultConfig, qtruthy]
  have pm : OptionRec.mid_price c3Put = some 2 := by
    norm_num [OptionRec.mid_price, c3Put, qtruthy]
  have p1 : c3Put.expiry_dte = 30 := rfl
  have p2 : c3Put.delta = some (-3/10) := rfl
  have p3 : c3Put.strike = 50 := rfl
  have p8 : c3Put.option_type = "PUT" := rfl
  have q3a : qsOptionsPoints c3Put (2 / (50 * 100) * 100 * 365 / ((30 : ℤ) : ℚ)) = 15 :=
    q3 _ (by norm_num)
  have q3b : qsOptionsPoints c3Put (73 / 150) = 15 := q3 _ (by norm_num)
  have hcand : putCandidateSignal c3Stock defaultConfig c3Put = some c3Row := by
    norm_num [putCandidateSignal, calc_quality_eval, hm, pm, p1, p2, p3, qtruthy,
      q1, q2, q3a, q3b, habs, hr30, c3Row]
  have hind : c3Stock.indicators = some c3Ind := rfl
  simp only [_generate_put_signals, hind]
  norm_num [putSignalLoop, hcand, p1, p8, List.filter, c3Ind]
  decide

/-- C3 (amended): every CASH_SECURED_PUT signal persisted by
_generate_put_signals has quality_score ≥ 60 (the generator skips candidates
below the threshold), while _generate_covered_call_signals persists
COVERED_CALL signals with no quality-score threshold at all — on the
concrete owned stock ccStock it persists a signal with quality_score 0. -/
theorem put_signals_gated_calls_not (stock : Stock) (config : UserConfig)
    (options : List OptionRec) (s : SignalRow)
    (h : s ∈ _generate_put_signals stock config options) :
    60 ≤ s.quality_score
    ∧ (_generate_covered_call_signals ccStock defaultConfig [ccCall]).map
        SignalRow.quality_score = [0] := by
  constructor
  · rcases hi : stock.indicators with _ | ind
    · simp only [_generate_put_signals, hi] at h
      simp at h
    · simp only [_generate_put_signals, hi] at h
      split_ifs at h
      · simp at h
      · exact putSignalLoop_quality stock config _ 0 s h
  · rw [ccGen_eval]
    rfl

/-- Witness for C3 at the concrete strong-fundamentals stock: its PUT signal
is persisted with quality_score 90 ≥ 60. -/
theorem put_signals_gated_calls_not_witness :
    60 ≤ c3Row.quality_score
    ∧ (_generate_covered_call_signals ccStock defaultConfig [ccCall]).map
        SignalRow.quality_score = [0] :=
  put_signals_gated_calls_not c3Stock defaultConfig [c3Put] c3Row
    (by rw [putGen_eval]; exact List.mem_singleton.mpr rfl)

/-- C3 counterexample: the covered-call generator persists a COVERED_CALL
signal whose quality_score is 0 < 60, so not every signal persisted by the
signal generator has quality_score ≥ 60 at creation. -/
theorem covered_call_signal_below_threshold :
    ∃ s ∈ _generate_covered_call_signals ccStock defaultConfig [ccCall],
      s.quality_score < 60 := by
  rw [ccGen_eval]
  refine ⟨ccRow, List.mem_singleton.mpr rfl, ?_⟩
  norm_num [ccRow]

/-- C4: for every stock with an indicator snapshot, calculate_entry_signal
returns score = max(0, min(technical,40) + min(premium,30) + min(context,20)
− risk_penalty) + 10, and the signal/quality labels are exactly determined by
the 75/60/45 thresholds on that score. -/
theorem entry_signal_score_and_labels (stock : Stock) (ind : StockIndicator)
    (h : stock.indicators = some ind) :
    (calculate_entry_signal stock).score
      = max 0 (((min (entryTechnicalPoints stock ind) 40 : ℕ) : ℤ)
          + ((min (entryPremiumPoints stock) 30 : ℕ) : ℤ)
          + ((min (entryContextPoints stock ind) 20 : ℕ) : ℤ)
          - ((entryRiskPenalty stock ind : ℕ) : ℤ)) + 10
    ∧ (((calculate_entry_signal stock).signal = "SELL PUT NOW"
        ∧ (calculate_entry_signal stock).quality = "EXCELLENT")
       ↔ 75 ≤ (calculate_entry_signal stock).score)
    ∧ (((calculate_entry_signal stock).signal = "GOOD ENTRY"
        ∧ (calculate_entry_signal stock).quality = "GOOD")
       ↔ 60 ≤ (calculate_entry_signal stock).score
          ∧ (calculate_entry_signal stock).score < 75)
    ∧ (((calculate_entry_signal stock).signal = "WAIT FOR DIP"
        ∧ (calculate_entry_signal stock).quality = "FAIR")
       ↔ 45 ≤ (calculate_entry_signal stock).score
          ∧ (calculate_entry_signal stock).score < 60)
    ∧ (((calculate_entry_signal stock).signal = "AVOID"
        ∧ (calculate_entry_signal stock).quality = "POOR")
       ↔ (calculate_entry_signal stock).score < 45) := by
  simp only [calculate_entry_signal, h]
  split_ifs with h1 h2 h3 <;> dsimp only <;>
    refine ⟨rfl, ?_, ?_, ?_, ?_⟩ <;>
    constructor <;>
    intro hx <;>
    first
      | exact ⟨rfl, rfl⟩
      | omega
      | exact absurd hx.1 (by decide)

/-- Witness for C4 at the concrete scenario stock c1Stock. -/
theorem entry_signal_score_and_labels_witness :
    (calculate_entry_signal c1Stock).score
      = max 0 (((min (entryTechnicalPoints c1Stock c1Ind) 40 : ℕ) : ℤ)
          + ((min (entryPremiumPoints c1Stock) 30 : ℕ) : ℤ)
          + ((min (entryContextPoints c1Stock c1Ind) 20 : ℕ) : ℤ)
          - ((entryRiskPenalty c1Stock c1Ind : ℕ) : ℤ)) + 10
    ∧ (((calculate_entry_signal c1Stock).signal = "SELL PUT NOW"
        ∧ (calculate_entry_signal c1Stock).quality = "EXCELLENT")
       ↔ 75 ≤ (calculate_entry_signal c1Stock).score)
    ∧ (((calculate_entry_signal c1Stock).signal = "GOOD ENTRY"
        ∧ (calculate_entry_signal c1Stock).quality = "GOOD")
       ↔ 60 ≤ (calculate_entry_signal c1Stock).score
          ∧ (calculate_entry_signal c1Stock).score < 75)
    ∧ (((calculate_entry_signal c1Stock).signal = "WAIT FOR DIP"
        ∧ (calculate_entry_signal c1Stock).quality = "FAIR")
       ↔ 45 ≤ (calculate_entry_signal c1Stock).score
          ∧ (calculate_entry_signal c1Stock).score < 60)
    ∧ (((calculate_entry_signal c1Stock).signal = "AVOID"
        ∧ (calculate_entry_signal c1Stock).quality = "POOR")
       ↔ (calculate_entry_signal c1Stock).score < 45) :=
  entry_signal_score_and_labels c1Stock c1Ind rfl

theorem diffs_pos_of_chain (l : List ℚ) (hl : List.Chain' (· < ·) l) :
    ∀ x ∈ diffs l, 0 < x := by
  induction l with
  | nil => intro x hx; simp [diffs] at hx
  | cons a t ih =>
    cases t with
    | nil => intro x hx; simp [diffs] at hx
    | cons b rest =>
      rw [List.chain'_cons] at hl
      intro x hx
      rcases List.mem_cons.mp hx with rfl | hx
      · exact sub_pos.mpr hl.1
      · exact ih hl.2 x hx

theorem diffs_neg_of_chain (l : List ℚ) (hl : List.Chain' (· > ·) l) :
    ∀ x ∈ diffs l, x < 0 := by
  induction l with
  | nil => intro x hx; simp [diffs] at hx
  | cons a t ih =>
    cases t with
    | nil => intro x hx; simp [diffs] at hx
    | cons b rest =>
      rw [List.chain'_cons] at hl
      intro x hx
      rcases List.mem_cons.mp hx with rfl | hx
      · exact sub_neg.mpr hl.1
      · exact ih hl.2 x hx

theorem diffs_length (l : List ℚ) : (diffs l).length = l.length - 1 := by
  induction l with
  | nil => rfl
  | cons a t ih =>
    cases t with
    | nil => rfl
    | cons b rest =>
      show ((b - a) :: diffs (b :: rest)).length = (a :: b :: rest).length - 1
      simp only [List.length_cons, ih]
      simp

theorem gainSeries_length (closes : List ℚ) (h : 1 ≤ closes.length) :
    (gainSeries closes).length = closes.length := by
  simp only [gainSeries, List.length_cons, List.length_map, diffs_length]
  omega

theorem lossSeries_length (closes : List ℚ) (h : 1 ≤ closes.length) :
    (lossSeries closes).length = closes.length := by
  simp only [lossSeries, List.length_cons, List.length_map, diffs_length]
  omega

theorem gainSeries_window (closes : List ℚ) (h : 15 ≤ closes.length) :
    (gainSeries closes).drop ((gainSeries closes).length - 14)
      = ((diffs closes).map gainPart).drop (closes.length - 15) := by
  rw [gainSeries_length closes (by omega)]
  show (0 :: (diffs closes).map gainPart).drop (closes.length - 14) = _
  rw [show closes.length - 14 = (closes.length - 15) + 1 by omega, List.drop_succ_cons]

theorem lossSeries_window (closes : List ℚ) (h : 15 ≤ closes.length) :
    (lossSeries closes).drop ((lossSeries closes).length - 14)
      = ((diffs closes).map lossPart).drop (closes.length - 15) := by
  rw [lossSeries_length closes (by omega)]
  show (0 :: (diffs closes).map lossPart).drop (closes.length - 14) = _
  rw [show closes.length - 14 = (closes.length - 15) + 1 by omega, List.drop_succ_cons]

/-- C7: calculate_rsi returns RSI = 100 on every strictly increasing close
series of at least 15 bars (the rolling average loss is 0 and RSI saturates),
and RSI = 0 on every strictly decreasing such series. -/
theorem rsi_saturates (closes : List ℚ) (h15 : 15 ≤ closes.length) :
    (List.Chain' (· < ·) closes → (calculate_rsi closes).1 = some 100)
    ∧ (List.Chain' (· > ·) closes → (calculate_rsi closes).1 = some 0) := by
  constructor
  · intro hc
    have hpos := diffs_pos_of_chain closes hc
    have hL : ((lossSeries closes).drop ((lossSeries closes).length - 14)).sum / 14
        = (0 : ℚ) := by
      have hz : ((lossSeries closes).drop ((lossSeries closes).length - 14)).sum = 0 := by
        apply List.sum_eq_zero
        intro x hx
        have hx' : x ∈ (diffs closes).map lossPart := by
          rw [lossSeries_window closes h15] at hx
          exact List.mem_of_mem_drop hx
        rcases List.mem_map.mp hx' with ⟨d, hd, rfl⟩
        have hd' := hpos d hd
        simp only [lossPart]
        rw [if_neg (by linarith)]
      rw [hz]
      norm_num
    have hGpos : 0 < ((gainSeries closes).drop ((gainSeries closes).length - 14)).sum := by
      apply List.sum_pos
      · intro x hx
        have hx' : x ∈ (diffs closes).map gainPart := by
          rw [gainSeries_window closes h15] at hx
          exact List.mem_of_mem_drop hx
        rcases List.mem_map.mp hx' with ⟨d, hd, rfl⟩
        have hd' := hpos d hd
        simp only [gainPart]
        rw [if_pos hd']
        exact hd'
      · have hlen : ((gainSeries closes).drop ((gainSeries closes).length - 14)).length
            = 14 := by
          rw [List.length_drop, gainSeries_length closes (by omega)]
          omega
        intro hnil
        rw [hnil] at hlen
        simp at hlen
    have hG : ¬(((gainSeries closes).drop ((gainSeries closes).length - 14)).sum / 14
        = (0 : ℚ)) := by
      have : 0 < ((gainSeries closes).drop ((gainSeries closes).length - 14)).sum / 14 :=
        div_pos hGpos (by norm_num)
      exact ne_of_gt this
    simp only [calculate_rsi]
    rw [if_neg (by omega)]
    rw [if_pos hL, if_neg hG]
  · intro hc
    have hneg := diffs_neg_of_chain closes hc
    have hGz : ((gainSeries closes).drop ((gainSeries closes).length - 14)).sum = 0 := by
      apply List.sum_eq_zero
      intro x hx
      have hx' : x ∈ (diffs closes).map gainPart := by
        rw [gainSeries_window closes h15] at hx
        exact List.mem_of_mem_drop hx
      rcases List.mem_map.mp hx' with ⟨d, hd, rfl⟩
      have hd' := hneg d hd
      simp only [gainPart]
      rw [if_neg (by linarith)]
    have hLpos : 0 < ((lossSeries closes).drop ((lossSeries closes).length - 14)).sum := by
      apply List.sum_pos
      · intro x hx
        have hx' : x ∈ (diffs closes).map lossPart := by
          rw [lossSeries_window closes h15] at hx
          exact List.mem_of_mem_drop hx
        rcases List.mem_map.mp hx' with ⟨d, hd, rfl⟩
        have hd' := hneg d hd
        simp only [lossPart]
        rw [if_pos hd']
        linarith
      · have hlen : ((lossSeries closes).drop ((lossSeries closes).length - 14)).length
            = 14 := by
          rw [List.length_drop, lossSeries_length closes (by omega)]
          omega
        intro hnil
        rw [hnil] at hlen
        simp at hlen
    have hLne : ¬(((lossSeries closes).drop ((lossSeries closes).length - 14)).sum / 14
        = (0 : ℚ)) := by
      have : 0 < ((lossSeries closes).drop ((lossSeries closes).length - 14)).sum / 14 :=
        div_pos hLpos (by norm_num)
      exact ne_of_gt this
    simp only [calculate_rsi]
    rw [if_neg (by omega)]
    rw [if_neg hLne]
    simp only [hGz, zero_div, add_zero, div_one, sub_self]

/-- Witness for C7 on concrete 15-bar monotone series. -/
theorem rsi_saturates_witness :
    (calculate_rsi c7Up).1 = some 100 ∧ (calculate_rsi c7Down).1 = some 0 :=
  ⟨(rsi_saturates c7Up (by norm_num [c7Up])).1
      (by norm_num [c7Up, List.chain'_cons, List.chain'_singleton]),
   (rsi_saturates c7Down (by norm_num [c7Down])).2
      (by norm_num [c7Down, List.chain'_cons, List.chain'_singleton])⟩

theorem mem_insertAscQ {x a : ℚ} {l : List ℚ} : a ∈ insertAscQ x l ↔ a = x ∨ a ∈ l := by
  induction l with
  | nil => simp [insertAscQ]
  | cons y ys ih =>
    simp only [insertAscQ]
    split_ifs
    · simp [List.mem_cons]
    · rw [List.mem_cons, ih, List.mem_cons]
      tauto

theorem mem_sortAscQ {a : ℚ} {l : List ℚ} : a ∈ sortAscQ l ↔ a ∈ l := by
  induction l with
  | nil => simp [sortAscQ]
  | cons y ys ih =>
    show a ∈ insertAscQ y (sortAscQ ys) ↔ _
    rw [mem_insertAscQ, ih, List.mem_cons]

theorem pairwise_insertAscQ {x : ℚ} {l : List ℚ} (h : l.Pairwise (· ≤ ·)) :
    (insertAscQ x l).Pairwise (· ≤ ·) := by
  induction l with
  | nil => simp [insertAscQ]
  | cons y ys ih =>
    rcases List.pairwise_cons.mp h with ⟨hy, hys⟩
    simp only [insertAscQ]
    split_ifs with hxy
    · refine List.pairwise_cons.mpr ⟨?_, h⟩
      intro b hb
      rcases List.mem_cons.mp hb with rfl | hb
      · exact hxy
      · exact le_trans hxy (hy b hb)
    · refine List.pairwise_cons.mpr ⟨?_, ih hys⟩
      intro b hb
      rcases mem_insertAscQ.mp hb with rfl | hb
      · exact le_of_not_le hxy
      · exact hy b hb

theorem pairwise_sortAscQ (l : List ℚ) : (sortAscQ l).Pairwise (· ≤ ·) := by
  induction l with
  | nil => simp [sortAscQ]
  | cons y ys ih => exact pairwise_insertAscQ ih

theorem mem_insertDescQ {x a : ℚ} {l : List ℚ} : a ∈ insertDescQ x l ↔ a = x ∨ a ∈ l := by
  induction l with
  | nil => simp [insertDescQ]
  | cons y ys ih =>
    simp only [insertDescQ]
    split_ifs
    · simp [List.mem_cons]
    · rw [List.mem_cons, ih, List.mem_cons]
      tauto

theorem mem_sortDescQ {a : ℚ} {l : List ℚ} : a ∈ sortDescQ l ↔ a ∈ l := by
  induction l with
  | nil => simp [sortDescQ]
  | cons y ys ih =>
    show a ∈ insertDescQ y (sortDescQ ys) ↔ _
    rw [mem_insertDescQ, ih, List.mem_cons]

theorem pairwise_insertDescQ {x : ℚ} {l : List ℚ} (h : l.Pairwise (· ≥ ·)) :
    (insertDescQ x l).Pairwise (· ≥ ·) := by
  induction l with
  | nil => simp [insertDescQ]
  | cons y ys ih =>
    rcases List.pairwise_cons.mp h with ⟨hy, hys⟩
    simp only [insertDescQ]
    split_ifs with hxy
    · refine List.pairwise_cons.mpr ⟨?_, h⟩
      intro b hb
      rcases List.mem_cons.mp hb with rfl | hb
      · exact hxy
      · exact le_trans (hy b hb) hxy
    · refine List.pairwise_cons.mpr ⟨?_, ih hys⟩
      intro b hb
      rcases mem_insertDescQ.mp hb with rfl | hb
      · exact le_of_not_le hxy
      · exact hy b hb

theorem pairwise_sortDescQ (l : List ℚ) : (sortDescQ l).Pairwise (· ≥ ·) := by
  induction l with
  | nil => simp [sortDescQ]
  | cons y ys ih => exact pairwise_insertDescQ ih

/-- C5: detect_support_resistance always returns exactly 3 support slots and
3 resistance slots, the non-null supports forming a prefix of values strictly
below the last close in descending order (closest first) and the non-null
resistances a prefix of values strictly above it in ascending order, with the
missing slots padded by None. -/
theorem detect_sr_shape (f : OHLCVFrame) :
    ∃ sups ress : List ℚ,
      (detect_support_resistance f).support_levels
        = sups.map some ++ List.replicate (3 - sups.length) none
      ∧ (detect_support_resistance f).resistance_levels
        = ress.map some ++ List.replicate (3 - ress.length) none
      ∧ (detect_support_resistance f).support_levels.length = 3
      ∧ (detect_support_resistance f).resistance_levels.length = 3
      ∧ sups.Pairwise (· ≥ ·) ∧ ress.Pairwise (· ≤ ·)
      ∧ (∀ v ∈ sups, v < f.closes.getLastD 0)
      ∧ (∀ v ∈ ress, f.closes.getLastD 0 < v) := by
  rcases hl : f.closes.getLast? with _ | p
  · have hres : detect_support_resistance f
        = { support_levels := List.replicate 3 none
            resistance_levels := List.replicate 3 none } := by
      unfold detect_support_resistance
      rw [hl]
    refine ⟨[], [], ?_, ?_, ?_, ?_, ?_, ?_, ?_, ?_⟩ <;> simp [hres]
  · have hres : detect_support_resistance f
        = { support_levels := padTo3
              (((sortDescQ ((cluster_levels (supportCandidates f)).filter
                  fun s => s < p)).take 3).map some)
            resistance_levels := padTo3
              (((sortAscQ ((cluster_levels (resistanceCandidates f)).filter
                  fun r => p < r)).take 3).map some) } := by
      unfold detect_support_resistance
      rw [hl]
    have hlast : f.closes.getLastD 0 = p := by
      rw [List.getLastD_eq_getLast?, hl]
      rfl
    refine ⟨(sortDescQ ((cluster_levels (supportCandidates f)).filter
        fun s => s < p)).take 3,
      (sortAscQ ((cluster_levels (resistanceCandidates f)).filter
        fun r => p < r)).take 3, ?_, ?_, ?_, ?_, ?_, ?_, ?_, ?_⟩
    · rw [hres]
      simp [padTo3]
    · rw [hres]
      simp [padTo3]
    · rw [hres]
      have h3 : ((sortDescQ ((cluster_levels (supportCandidates f)).filter
          fun s => s < p)).take 3).length ≤ 3 := by
        rw [List.length_take]
        exact min_le_left _ _
      simp only [padTo3, List.length_append, List.length_map, List.length_replicate]
      omega
    · rw [hres]
      have h3 : ((sortAscQ ((cluster_levels (resistanceCandidates f)).filter
          fun r => p < r)).take 3).length ≤ 3 := by
        rw [List.length_take]
        exact min_le_left _ _
      simp only [padTo3, List.length_append, List.length_map, List.length_replicate]
      omega
    · exact List.Pairwise.sublist (List.take_sublist _ _) (pairwise_sortDescQ _)
    · exact List.Pairwise.sublist (List.take_sublist _ _) (pairwise_sortAscQ _)
    · intro v hv
      rw [hlast]
      have hv1 := List.mem_of_mem_take hv
      have hv2 := mem_sortDescQ.mp hv1
      have hv3 := List.of_mem_filter hv2
      simpa using hv3
    · intro v hv
      rw [hlast]
      have hv1 := List.mem_of_mem_take hv
      have hv2 := mem_sortAscQ.mp hv1
      have hv3 := List.of_mem_filter hv2
      simpa using hv3
